import Mathlib

/-!
# Verification of the remdisEdu incremental-dialogue coordination layer

A shallow embedding, in Lean 4, of the parts of the remdisEdu source that
the specification's testable properties talk about:

* `PyStr` — executable models of the Python string operations the source
  uses (`strip()`, `split(" ")`, `lower()`, `replace`).
* `Remdis` — the shared incremental-unit (IU) update kinds.
* `Asr` — the token-diff reconciliation of `src/modules/asr.py`
  (`get_text_increment`).
* `Dlg` — the dialogue manager of `src/modules/dialogue.py`: the
  `idle`/`listening`/`talking` state machine (`state_management`), the
  VAP callback, response triggering, the LLM result buffer, barge-in
  revocation (`stop_response`), and the default-response fallback.
* `TextVap` — the silence-timeout committer and the LLM-classification
  parser of `src/modules/text_vap.py`.
* `Tts` — the revoke-aware chunked audio pipeline of
  `src/modules/tts.py`, modelled as a small-step transition system over
  its three loops (receive callback, synthesis loop, send loop).

Stateful Python code becomes explicit state passing; thread interleaving
is modelled by step functions applied in an explicit schedule; message
publication becomes an output list in publication order.  Wall-clock
timestamps are modelled as integers (only comparisons between them
matter to the code under verification).
-/

namespace PyStr

/-- The whitespace characters `str.strip()` removes. -/
def isPySpace (c : Char) : Bool :=
  c = ' ' || c = '\t' || c = '\n' || c = '\r' || c = '\x0b' || c = '\x0c'

/-- Python `s.strip()`: drop whitespace from both ends. -/
def pyStrip (s : String) : String :=
  String.mk (((s.data.dropWhile isPySpace).reverse.dropWhile isPySpace).reverse)

/-- Helper for `pySplitSpace`: accumulates the current field (reversed)
while scanning the character list. -/
def splitSpaceAux : List Char → List Char → List String
  | [], acc => [String.mk acc.reverse]
  | c :: cs, acc =>
    if c = ' ' then String.mk acc.reverse :: splitSpaceAux cs []
    else splitSpaceAux cs (c :: acc)

/-- Python `s.split(" ")`: split on each single space character; empty
fields are kept, and the empty string yields `[""]`. -/
def pySplitSpace (s : String) : List String := splitSpaceAux s.data []

/-- Python `s.lower()` (ASCII case folding suffices for the label names
the source compares). -/
def pyLower (s : String) : String := String.mk (s.data.map Char.toLower)

/-- Python `s.replace(old_char, "")` for a single character: drop every
occurrence of that character. -/
def pyDropChar (s : String) (c : Char) : String :=
  String.mk (s.data.filter (fun x => x ≠ c))

end PyStr

namespace Remdis

/-- IU update kinds, from `base.RemdisUpdateType` as used throughout the
source (`ADD`, `REVOKE`, `COMMIT`). -/
inductive UpdateType where
  | add
  | revoke
  | commit
deriving DecidableEq, Repr

end Remdis

namespace Asr

open PyStr

/-- An entry of `ASR.current_output`: an IU dict as created by
`createIU_ASR`, restricted to the fields `get_text_increment` reads and
writes (`id`, `body`, `update_type`).  Ids are globally unique, assigned
by `createIU`. -/
structure ASRIU where
  id : Nat
  body : String
  update : Remdis.UpdateType
deriving DecidableEq, Repr

/-- The comparison loop of `get_text_increment` (asr.py lines 27-43).
Walks `current_output` and the token list of the new recognition text in
step: a matching token advances both cursors and keeps the IU; a
mismatch marks the IU `REVOKE`, appends it to `iu_buffer`, and advances
only the IU cursor; tokens left once `current_output` is exhausted
become `new_tokens`.  Returns `(iu_buffer, new_tokens, marked)` where
`marked` is `current_output` after the in-place `REVOKE` marking. -/
def diffMark : List ASRIU → List String → List ASRIU × List String × List ASRIU
  | prev, [] => ([], [], prev)
  | [], t :: ts => ([], t :: ts, [])
  | iu :: ps, t :: ts =>
    if t = iu.body then
      let r := diffMark ps ts
      (r.1, r.2.1, iu :: r.2.2)
    else
      let r := diffMark ps (t :: ts)
      ({ iu with update := Remdis.UpdateType.revoke } :: r.1, r.2.1,
       { iu with update := Remdis.UpdateType.revoke } :: r.2.2)

/-- `get_text_increment(module, new_text)` of asr.py (lines 14-45):
splits the new text into tokens (`new_text.strip().split(" ")`), returns
early when the split is `[""]`, otherwise runs the comparison loop and
filters the `REVOKE`-marked entries out of `current_output`.  Result:
`(iu_buffer, new_tokens, new current_output)`. -/
def get_text_increment (current_output : List ASRIU) (new_text : String) :
    List ASRIU × List String × List ASRIU :=
  let tokens := pySplitSpace (pyStrip new_text)
  if tokens = [""] then ([], [], current_output)
  else
    let r := diffMark current_output tokens
    (r.1, r.2.1, r.2.2.filter (fun iu => iu.update ≠ Remdis.UpdateType.revoke))

/-- Modelled from the spec's words (§4.2, §8): "applying revokes then
adds to `prev`" — remove from `prev` every IU that was revoked
(identified by id, since a REVOKE refers to a prior ADD of the same id)
and append the added tokens; read off the token bodies. -/
def applyRevokesThenAdds (prev revoked : List ASRIU) (adds : List String) :
    List String :=
  (prev.filter (fun iu => ¬ revoked.any (fun r => r.id = iu.id))).map
    (fun iu => iu.body) ++ adds

/-- The suffix of `current_output` that the comparison loop never
examines, because the new token list ran out first.  Empty whenever the
walk reaches the end of `current_output`. -/
def diffLeftover : List ASRIU → List String → List ASRIU
  | prev, [] => prev
  | [], _ :: _ => []
  | iu :: ps, t :: ts =>
    if t = iu.body then diffLeftover ps ts else diffLeftover ps (t :: ts)

end Asr

namespace Dlg

open PyStr

/-- The dialogue manager's turn-taking states (`Dialogue.state`). -/
inductive DMState where
  | idle
  | listening
  | talking
deriving DecidableEq, Repr

/-- An IU published by the dialogue manager, restricted to the fields
the claims mention: `createIU` assigns the id; `exchange`, `update_type`
and `body` are set by the caller. -/
structure IU where
  id : Nat
  exchange : String
  update : Remdis.UpdateType
  body : String
deriving DecidableEq, Repr

/-- The events `callback_vap` / `callback_tts` put on
`Dialogue.event_queue`. -/
inductive Event where
  | asrCommit
  | systemTakeTurn
  | ttsCommit
  | systemBackchannel
deriving DecidableEq, Repr

/-- A `ResponseChatGPT` instance as it sits in `llm_buffer`: it carries
the `asr_time` (the `asr_timestamp` passed to `run`) and the user
utterance it was launched for (llm.py lines 145-154). -/
structure Attempt where
  asr_time : Int
  user_utterance : String
deriving DecidableEq, Repr

/-- The mutable fields of `Dialogue` that the claims touch
(dialogue.py lines 77-94), plus the configured `history_length`. -/
structure DialogueState where
  state : DMState
  dialogue_history : List (String × String)
  system_utterance_end_time : Int
  final_utterance_for_turn : Option String
  output_iu_buffer : List IU
  llm_buffer : List Attempt
  processing_response : Bool
  event_queue : List Event
  history_length : Nat
deriving DecidableEq, Repr

/-- `Dialogue.callback_vap` (dialogue.py lines 134-171): parses the VAP
payload and enqueues the corresponding event; for `ASR_COMMIT` it first
stores the stripped text (or `None` when empty).  The incoming IU's
`timestamp` is a parameter because the message carries one; the function
body never reads it — the source performs no timestamp comparison. -/
def callback_vap (s : DialogueState) (timestamp : Int) (event : String)
    (text : String) : DialogueState :=
  let _ := timestamp
  if event = "ASR_COMMIT" then
    let final_text := pyStrip text
    if final_text ≠ "" then
      { s with final_utterance_for_turn := some final_text,
               event_queue := s.event_queue ++ [Event.asrCommit] }
    else
      { s with final_utterance_for_turn := none,
               event_queue := s.event_queue ++ [Event.asrCommit] }
  else if event = "SYSTEM_TAKE_TURN" then
    { s with event_queue := s.event_queue ++ [Event.systemTakeTurn] }
  else if event = "TTS_COMMIT" then
    { s with event_queue := s.event_queue ++ [Event.ttsCommit] }
  else if event = "SYSTEM_BACKCHANNEL" then
    { s with event_queue := s.event_queue ++ [Event.systemBackchannel] }
  else s

/-- `Dialogue.callback_tts` (dialogue.py lines 174-184): on a `tts`
COMMIT, clear the output buffer, record the COMMIT's timestamp as
`system_utterance_end_time`, and enqueue `TTS_COMMIT`. -/
def callback_tts (s : DialogueState) (update : Remdis.UpdateType)
    (timestamp : Int) : DialogueState :=
  if update = Remdis.UpdateType.commit then
    { s with output_iu_buffer := [],
             system_utterance_end_time := timestamp,
             event_queue := s.event_queue ++ [Event.ttsCommit] }
  else s

/-- `Dialogue.history_management` (dialogue.py lines 399-405): skip an
empty utterance, append `(role, stripped content)`, trim to the last
`history_length * 2` entries. -/
def history_management (s : DialogueState) (role utt : String) :
    DialogueState :=
  if utt = "" then s
  else
    let h := s.dialogue_history ++ [(role, pyStrip utt)]
    let h := if h.length > s.history_length * 2 then
               h.drop (h.length - s.history_length * 2) else h
    { s with dialogue_history := h }

/-- `Dialogue.trigger_response_generation` (dialogue.py lines 262-287).
Returns the new state, the IUs published during the call (always none:
the function only spawns worker threads), and whether an LLM attempt was
actually launched.  When `processing_response` is already set it logs
and returns immediately; an empty or error-marker utterance resets the
state to `idle` without launching. -/
def trigger_response_generation (s : DialogueState) (utterance : String) :
    DialogueState × List IU × Bool :=
  if s.processing_response then (s, [], false)
  else if utterance = "" ∨ utterance = "(error - utterance missing)" then
    ({ s with state := DMState.idle }, [], false)
  else
    ({ s with processing_response := true }, [], true)

/-- `Dialogue.stop_response` (dialogue.py lines 365-373): for every IU
in `output_iu_buffer`, publish a copy with `update_type` set to `REVOKE`
on that IU's own exchange (in buffer order), then empty the buffer. -/
def stop_response (buf : List IU) : List IU :=
  buf.map (fun iu => { iu with update := Remdis.UpdateType.revoke })

/-- One iteration of `Dialogue.state_management` (dialogue.py lines
199-259) handling a single dequeued event.  `bcChoice` stands for the
`random.choice(self.backchannels)` pick and `freshId` for the id
`createIU` would assign, both only used by the backchannel branch.
Returns the new state, the IUs published while handling the event (in
publication order), and whether a response generation was launched. -/
def state_step (s : DialogueState) (ev : Event) (bcChoice : String)
    (freshId : Nat) : DialogueState × List IU × Bool :=
  match s.state, ev with
  | DMState.idle, Event.asrCommit =>
      ({ s with state := DMState.listening }, [], false)
  | DMState.idle, Event.systemTakeTurn =>
      let s1 := { s with state := DMState.talking,
                         final_utterance_for_turn := none }
      trigger_response_generation s1 "(silence)"
  | DMState.idle, Event.systemBackchannel =>
      (s, [⟨freshId, "dialogue", Remdis.UpdateType.add, bcChoice⟩], false)
  | DMState.idle, Event.ttsCommit => (s, [], false)
  | DMState.listening, Event.systemTakeTurn =>
      let utt := s.final_utterance_for_turn.getD "(error - utterance missing)"
      let s1 := { s with state := DMState.talking }
      let r := trigger_response_generation s1 utt
      ({ r.1 with final_utterance_for_turn := none }, r.2.1, r.2.2)
  | DMState.listening, Event.ttsCommit =>
      ({ s with state := DMState.idle }, [], false)
  | DMState.listening, Event.asrCommit => (s, [], false)
  | DMState.listening, Event.systemBackchannel => (s, [], false)
  | DMState.talking, Event.ttsCommit =>
      ({ s with state := DMState.idle, processing_response := false }, [], false)
  | DMState.talking, Event.asrCommit =>
      let pubs := stop_response s.output_iu_buffer
      ({ s with output_iu_buffer := [],
                state := DMState.listening,
                processing_response := false }, pubs, false)
  | DMState.talking, Event.systemTakeTurn => (s, [], false)
  | DMState.talking, Event.systemBackchannel => (s, [], false)

/-- `queue.Queue.get` on `llm_buffer` as used by
`send_response_from_buffer` (dialogue.py line 293): a FIFO dequeue of
the earliest-enqueued `ResponseChatGPT` instance; `none` models the
timeout when the buffer stays empty. -/
def llm_buffer_get (buf : List Attempt) : Option (Attempt × List Attempt) :=
  match buf with
  | [] => none
  | a :: rest => some (a, rest)

/-- `parent_llm_buffer.put(self)` at the end of `ResponseChatGPT.run`
(llm.py line 154): a FIFO enqueue. -/
def llm_buffer_put (buf : List Attempt) (a : Attempt) : List Attempt :=
  buf ++ [a]

/-- The default phrase of `Dialogue.send_default_response`
(dialogue.py line 346). -/
def default_response : String :=
  "Sorry, I didn't quite catch that. Could you repeat?"

/-- `Dialogue.send_default_response` (dialogue.py lines 342-353):
publish the default phrase as an ADD on `dialogue` (recording it in
`output_iu_buffer`), then an empty COMMIT on `dialogue`, then record the
user utterance and the default response in the history.  `freshId` and
`freshId + 1` stand for the ids `createIU` assigns. -/
def send_default_response (s : DialogueState) (original_utterance : String)
    (freshId : Nat) : DialogueState × List IU :=
  let add_iu : IU := ⟨freshId, "dialogue", Remdis.UpdateType.add, default_response⟩
  let commit_iu : IU := ⟨freshId + 1, "dialogue", Remdis.UpdateType.commit, ""⟩
  let s1 := { s with output_iu_buffer := s.output_iu_buffer ++ [add_iu] }
  let s2 := if original_utterance ≠ "" then
              history_management s1 "user" original_utterance else s1
  let s3 := history_management s2 "assistant" default_response
  (s3, [add_iu, commit_iu])

/-- The `queue.Empty` branch of `Dialogue.send_response_from_buffer`
(dialogue.py lines 331-333): when no LLM result arrives within the
10-second wait (and likewise on any error, lines 334-337), the default
response is sent — but only if the state is still `talking`. -/
def llm_timeout_handler (s : DialogueState) (original_utterance : String)
    (freshId : Nat) : DialogueState × List IU :=
  if s.state = DMState.talking then
    send_default_response s original_utterance freshId
  else (s, [])

end Dlg

namespace TextVap

open PyStr

/-- A message published by TextVAP, as the claims need it: either a
`vap`-exchange event record `{'event': ..., 'text': ...}` or an
`emo_act`-exchange `expression_and_action` record. -/
inductive TVPub where
  | vapEvent (event : String) (text : Option String)
  | emoAct (emotion action concept currentText : String)
deriving DecidableEq, Repr

/-- The mutable fields of `TextVAP` that the claims touch (text_vap.py
lines 50-56).  `liveMonitors` models the number of spawned
`timeout_monitor` threads that have not yet returned; the source only
keeps a handle to the most recent one (`active_timeout_thread`) and
never joins or stops the earlier ones. -/
structure TVState where
  accumulated_text : String
  last_asr_timestamp : Int
  is_timeout_mode : Bool
  current_emotion : String
  current_action : String
  current_concept : String
  last_committed_text_from_input : String
  liveMonitors : Nat
deriving DecidableEq, Repr

/-- `TextVAP.send_emotion_action_concept` (text_vap.py lines 198-211):
publish the current emotion/action/concept state together with the
stripped current text on `emo_act`. -/
def send_emotion_action_concept (s : TVState) (current_utterance_text : String) :
    TVPub :=
  TVPub.emoAct s.current_emotion s.current_action s.current_concept
    (pyStrip current_utterance_text)

/-- `TextVAP.reset_state_after_commit_signal` (text_vap.py lines
161-164): clear the accumulator, leave timeout mode, reset
emotion/action/concept and the duplicate-commit guard, publish the reset
state on `emo_act`, and cancel the timeout flag.  The publish happens
after the fields are reset, so it carries the reset values. -/
def reset_state_after_commit_signal (s : TVState) : TVState × List TVPub :=
  let s1 := { s with accumulated_text := "", is_timeout_mode := false,
                     current_emotion := "normal", current_action := "wait",
                     current_concept := "",
                     last_committed_text_from_input := "" }
  (s1, [send_emotion_action_concept s1 ""])

/-- `TextVAP.schedule_timeout_check` (text_vap.py lines 214-215): under
`timeout_thread_lock`, set `is_timeout_mode` (briefly false, true again
before the new thread starts) and start a fresh `timeout_monitor`
daemon thread.  The previously spawned monitors are neither joined nor
stopped — only the handle `active_timeout_thread` is overwritten — so
the live-monitor count grows by one (this models the interleaving in
which no older monitor polls the flag during the transient false
window inside the lock). -/
def schedule_timeout_check (s : TVState) : TVState :=
  { s with is_timeout_mode := true, liveMonitors := s.liveMonitors + 1 }

/-- `TextVAP.cancel_timeout_check` (text_vap.py lines 217-219): clear
`is_timeout_mode`; the running monitor threads observe the flag on their
next poll and exit (modelled as separate `monitor_observe_cancelled`
steps). -/
def cancel_timeout_check (s : TVState) : TVState :=
  { s with is_timeout_mode := false }

/-- A `timeout_monitor` thread that observes `is_timeout_mode = false`
at the top of its while loop exits (text_vap.py line 223). -/
def monitor_observe_cancelled (s : TVState) : TVState :=
  if s.is_timeout_mode then s else { s with liveMonitors := s.liveMonitors - 1 }

/-- The number of armed silence monitors: monitor threads that are live
while `is_timeout_mode` is set (each of them will fire once the silence
deadline passes, since they all poll the same shared flag). -/
def armedMonitors (s : TVState) : Nat :=
  if s.is_timeout_mode then s.liveMonitors else 0

/-- The firing iteration of `TextVAP.timeout_monitor` (text_vap.py lines
221-235): when the thread is in timeout mode and `now` is at least
`max_silence_time` past `last_asr_timestamp`, it takes the stripped
accumulator as the final text; if that is non-empty it publishes on
`vap` an `ASR_COMMIT` event carrying the text and then a
`SYSTEM_TAKE_TURN` event; in either case it resets the state via
`reset_state_after_commit_signal`, clears the flag and returns (the
thread exits, so the live count drops).  `none` when the firing
condition does not hold. -/
def timeout_monitor_fire (s : TVState) (now max_silence_time : Int) :
    Option (TVState × List TVPub) :=
  if s.is_timeout_mode ∧ now - s.last_asr_timestamp ≥ max_silence_time then
    let final_text := pyStrip s.accumulated_text
    let vapPubs := if final_text ≠ "" then
        [TVPub.vapEvent "ASR_COMMIT" (some final_text),
         TVPub.vapEvent "SYSTEM_TAKE_TURN" none]
      else []
    let r := reset_state_after_commit_signal s
    some ({ r.1 with is_timeout_mode := false,
                     liveMonitors := s.liveMonitors - 1 },
          vapPubs ++ r.2)
  else none

/-- Python `s.replace('"','').replace("'",'')` used on the `d:` match
(text_vap.py line 191). -/
def stripQuotes (s : String) : String :=
  pyDropChar (pyDropChar s '"') (Char.ofNat 39)

/-- `TextVAP.parse_and_update_state` (text_vap.py lines 178-196),
parameterised by the result of the three regex searches: `b` and `c`
carry the captured letter group, `d` the captured rest-of-line.  The
body mirrors the Python control flow faithfully, including its
unbound-local behaviour: when `b_match` (resp. `c_match`, `d_match`) is
`None`, the following comparison raises `NameError` on the never
assigned local, the surrounding `except` swallows it, and the function
returns with whatever state updates already happened and nothing
published.  When all three match, the `d:` text (stripped, quotes
removed) is stored as `current_concept`, and if anything changed the new
state is published on `emo_act` — never on `vap`. -/
def parse_and_update_state (s : TVState)
    (b c d : Option String) : TVState × List TVPub :=
  match b with
  | none => (s, [])
  | some bs =>
    let new_emotion := pyStrip (pyLower bs)
    let s1 := if new_emotion ≠ s.current_emotion then
                { s with current_emotion := new_emotion } else s
    let changed1 := new_emotion ≠ s.current_emotion
    match c with
    | none => (s1, [])
    | some cs =>
      let new_action := pyStrip (pyLower cs)
      let s2 := if new_action ≠ s1.current_action then
                  { s1 with current_action := new_action } else s1
      let changed2 := new_action ≠ s1.current_action
      match d with
      | none => (s2, [])
      | some ds =>
        let new_concept := stripQuotes (pyStrip ds)
        let s3 := if new_concept ≠ "" ∧ new_concept ≠ s2.current_concept then
                    { s2 with current_concept := new_concept } else s2
        let changed3 := new_concept ≠ "" ∧ new_concept ≠ s2.current_concept
        if changed1 ∨ changed2 ∨ changed3 then
          (s3, [send_emotion_action_concept s3 s.accumulated_text])
        else (s3, [])

/-- Whether a TextVAP publication is a `vap`-exchange event. -/
def isVapPub : TVPub → Bool
  | TVPub.vapEvent _ _ => true
  | TVPub.emoAct _ _ _ _ => false

end TextVap

namespace Tts

/-- A `dialogue`-exchange IU as the TTS callback receives it
(tts.py lines 149-158): id, text body and update kind. -/
structure DlgIU where
  id : Nat
  body : String
  update : Remdis.UpdateType
deriving DecidableEq, Repr

/-- An audio-chunk IU in `TTS.output_iu_buffer`.  `sourceId` is a ghost
field recording which dialogue IU the chunk was synthesized from (the
real chunk IU gets a fresh id from `createIU`; the claims only need to
know which turn a chunk belongs to). -/
structure Chunk where
  sourceId : Nat
  payload : String
  update : Remdis.UpdateType
deriving DecidableEq, Repr

/-- A message published on the `tts` exchange: an audio chunk, or the
empty COMMIT IU produced by `send_commitIU`. -/
inductive TtsOut where
  | chunk (c : Chunk)
  | commitIU
deriving DecidableEq, Repr

/-- Program counter of `send_loop`: at the top-of-loop revoke check, or
blocked in / about to perform the `output_iu_buffer.get`. -/
inductive SendPc where
  | check
  | get
deriving DecidableEq, Repr

/-- Program counter of `synthesis_loop`: at the top-of-loop revoke
check, or blocked in / about to perform the `input_iu_buffer.get`. -/
inductive SynthPc where
  | check
  | get
deriving DecidableEq, Repr

/-- The TTS pipeline state (tts.py lines 31-50): the two queues, the
`is_revoked` flag, the two loops' positions, and the trace of messages
published on `tts` so far. -/
structure TTSState where
  input_iu_buffer : List DlgIU
  output_iu_buffer : List Chunk
  is_revoked : Bool
  sendPc : SendPc
  synthPc : SynthPc
  published : List TtsOut
deriving DecidableEq, Repr

/-- `TTS.callback` (tts.py lines 149-158), run on the broker consumer
thread: a REVOKE only sets `is_revoked`; any other update kind is pushed
onto `input_iu_buffer` and clears `is_revoked`. -/
def tts_callback (s : TTSState) (iu : DlgIU) : TTSState :=
  if iu.update = Remdis.UpdateType.revoke then { s with is_revoked := true }
  else { s with input_iu_buffer := s.input_iu_buffer ++ [iu],
                is_revoked := false }

/-- The top of a `send_loop` iteration (tts.py lines 76-78): if
`is_revoked` is set, replace `output_iu_buffer` with a fresh empty queue
and publish a COMMIT on `tts` via `send_commitIU`; either way the loop
then proceeds to the blocking `get`.  (The flag itself is not cleared
here — only a later non-REVOKE dialogue message clears it.) -/
def send_step_check (s : TTSState) : TTSState :=
  if s.sendPc ≠ SendPc.check then s
  else if s.is_revoked then
    { s with output_iu_buffer := [],
             published := s.published ++ [TtsOut.commitIU],
             sendPc := SendPc.get }
  else { s with sendPc := SendPc.get }

/-- The rest of a `send_loop` iteration (tts.py lines 80-88): the
blocking `get` returns the head chunk, which is published on `tts`;
when that chunk carries update kind COMMIT, `send_commitIU` publishes a
COMMIT after it.  A no-op while the queue is empty (the `get` blocks). -/
def send_step_get (s : TTSState) : TTSState :=
  if s.sendPc ≠ SendPc.get then s
  else
    match s.output_iu_buffer with
    | [] => s
    | c :: rest =>
      let pubs := if c.update = Remdis.UpdateType.commit then
          [TtsOut.chunk c, TtsOut.commitIU]
        else [TtsOut.chunk c]
      { s with output_iu_buffer := rest,
               published := s.published ++ pubs,
               sendPc := SendPc.check }

/-- The top of a `synthesis_loop` iteration (tts.py lines 92-93): if
`is_revoked` is set, replace `input_iu_buffer` with a fresh empty queue;
then proceed to the blocking `get`. -/
def synth_step_check (s : TTSState) : TTSState :=
  if s.synthPc ≠ SynthPc.check then s
  else if s.is_revoked then
    { s with input_iu_buffer := [], synthPc := SynthPc.get }
  else { s with synthPc := SynthPc.get }

/-- The rest of a `synthesis_loop` iteration (tts.py lines 96-138),
with the external synthesis engine, resampling and chunk framing
abstracted into `engineChunks` (the list of chunk payloads produced for
a given text).  A non-empty body is synthesized and — unless
`is_revoked` became set meanwhile (the mid-loop check at line 120) —
its chunks are queued, each carrying the incoming IU's update kind; an
empty body queues one silent chunk (with no mid-loop revoke check, as
in the source).  A no-op while the input queue is empty. -/
def synth_step_get (engineChunks : String → List String) (s : TTSState) :
    TTSState :=
  if s.synthPc ≠ SynthPc.get then s
  else
    match s.input_iu_buffer with
    | [] => s
    | iu :: rest =>
      if iu.body ≠ "" then
        if s.is_revoked then
          { s with input_iu_buffer := rest, synthPc := SynthPc.check }
        else
          { s with input_iu_buffer := rest,
                   output_iu_buffer := s.output_iu_buffer ++
                     (engineChunks iu.body).map
                       (fun p => Chunk.mk iu.id p iu.update),
                   synthPc := SynthPc.check }
      else
        { s with input_iu_buffer := rest,
                 output_iu_buffer := s.output_iu_buffer ++
                   [Chunk.mk iu.id "" iu.update],
                 synthPc := SynthPc.check }

/-- A scheduling step of the TTS pipeline: either the broker delivers a
dialogue IU to the callback, or one of the two worker loops advances. -/
inductive Step where
  | recv (iu : DlgIU)
  | sendCheck
  | sendGet
  | synthCheck
  | synthGet
deriving DecidableEq, Repr

/-- Run one scheduling step. -/
def step (engineChunks : String → List String) (s : TTSState) :
    Step → TTSState
  | Step.recv iu => tts_callback s iu
  | Step.sendCheck => send_step_check s
  | Step.sendGet => send_step_get s
  | Step.synthCheck => synth_step_check s
  | Step.synthGet => synth_step_get engineChunks s

/-- Run a schedule (a list of steps) from a state. -/
def run (engineChunks : String → List String) (s : TTSState)
    (sched : List Step) : TTSState :=
  sched.foldl (step engineChunks) s

/-- The initial TTS state: empty queues, flag clear, both loops at their
top-of-loop checks, nothing published. -/
def initState : TTSState :=
  ⟨[], [], false, SendPc.check, SynthPc.check, []⟩

end Tts

open PyStr Remdis Asr Dlg TextVap Tts

/-- C1 (counterexample): the claim that at turn-yield the dialogue
manager selects from `llm_buffer` the pending attempt with the largest
`asr_timestamp` and cancels the others is false.  With two attempts in
the buffer (enqueued by `ResponseChatGPT.run` in launch order), the
`queue.Queue.get` in `send_response_from_buffer` returns the
earliest-enqueued attempt — here the one with `asr_time = 10`, strictly
smaller than the other attempt's `20` — and the fresher attempt remains
in the buffer, uncancelled. -/
theorem C1_counterexample :
    llm_buffer_get (llm_buffer_put (llm_buffer_put [] ⟨10, "earlier"⟩)
        ⟨20, "fresher"⟩)
      = some (⟨10, "earlier"⟩, [⟨20, "fresher"⟩])
    ∧ (10 : Int) < 20 := by
  constructor
  · rfl
  · decide

/-- C1 (amended): at turn-yield the dialogue manager dequeues the
earliest-enqueued attempt from `llm_buffer`, irrespective of
`asr_timestamp`; the remaining attempts stay in the buffer and are not
cancelled.  `ResponseChatGPT.run` enqueues at the tail, so selection is
strictly FIFO. -/
theorem C1_theorem (a : Attempt) (rest buf : List Attempt) (x : Attempt) :
    llm_buffer_get (a :: rest) = some (a, rest)
    ∧ llm_buffer_put buf x = buf ++ [x] := by
  exact ⟨rfl, rfl⟩

/-- C2: in the `talking → listening` transition on a barge-in
`ASR_COMMIT`, the dialogue manager publishes, for every IU recorded in
`output_iu_buffer`, a REVOKE with the same id on the same exchange; the
messages published during the transition are exactly those REVOKEs (in
particular no ADD is published before the transition completes), and
afterwards `output_iu_buffer` is empty. -/
theorem C2_theorem (s : DialogueState) (bc : String) (fid : Nat)
    (h : s.state = DMState.talking) :
    (state_step s Event.asrCommit bc fid).2.1
        = s.output_iu_buffer.map
            (fun iu => { iu with update := Remdis.UpdateType.revoke })
    ∧ (∀ iu ∈ s.output_iu_buffer,
        ∃ p ∈ (state_step s Event.asrCommit bc fid).2.1,
          p.id = iu.id ∧ p.exchange = iu.exchange
          ∧ p.update = Remdis.UpdateType.revoke)
    ∧ (∀ p ∈ (state_step s Event.asrCommit bc fid).2.1,
        p.update ≠ Remdis.UpdateType.add)
    ∧ (state_step s Event.asrCommit bc fid).1.output_iu_buffer = []
    ∧ (state_step s Event.asrCommit bc fid).1.state = DMState.listening := by
  obtain ⟨st, hist, et, fu, buf, lb, pr, eq, hl⟩ := s
  simp only at h
  subst h
  refine ⟨rfl, ?_, ?_, rfl, rfl⟩
  · intro iu hiu
    exact ⟨{ iu with update := Remdis.UpdateType.revoke },
           List.mem_map_of_mem _ hiu, rfl, rfl, rfl⟩
  · intro p hp
    obtain ⟨iu, _, rfl⟩ := List.mem_map.mp hp
    simp [stop_response]

/-- C2 (witness): the theorem applied to a concrete talking-state with
two buffered output IUs. -/
theorem C2_theorem_witness :
    (DialogueState.mk DMState.talking [] 0 none
        [⟨5, "dialogue", Remdis.UpdateType.add, "hi"⟩,
         ⟨6, "dialogue2", Remdis.UpdateType.add, "smile"⟩] [] true [] 5).state
      = DMState.talking
    ∧ ((state_step (DialogueState.mk DMState.talking [] 0 none
        [⟨5, "dialogue", Remdis.UpdateType.add, "hi"⟩,
         ⟨6, "dialogue2", Remdis.UpdateType.add, "smile"⟩] [] true [] 5)
        Event.asrCommit "Okay." 9).1.output_iu_buffer = []) :=
  ⟨rfl, (C2_theorem _ "Okay." 9 rfl).2.2.2.1⟩

/-- C3 (counterexample): the claim that the dialogue manager acts on a
user-input COMMIT only when the input IU's timestamp exceeds the
recorded `system_utterance_end_time` is false.  With
`system_utterance_end_time = 10`, a VAP `ASR_COMMIT` whose IU timestamp
is `5` (older) is still enqueued by `callback_vap` and still drives the
`idle → listening` transition: the source never compares the two
values. -/
theorem C3_counterexample :
    (callback_vap (DialogueState.mk DMState.idle [] 10 none [] [] false [] 5)
        5 "ASR_COMMIT" "hello").event_queue = [Event.asrCommit]
    ∧ (5 : Int) <
        (DialogueState.mk DMState.idle [] 10 none [] [] false [] 5).system_utterance_end_time
    ∧ (state_step
        (callback_vap (DialogueState.mk DMState.idle [] 10 none [] [] false [] 5)
          5 "ASR_COMMIT" "hello")
        Event.asrCommit "" 0).1.state = DMState.listening := by
  refine ⟨?_, by decide, ?_⟩ <;> rfl

/-- C3 (amended): the dialogue manager records
`system_utterance_end_time` from the `tts` COMMIT but never consults it:
`callback_vap` is independent of the incoming IU's timestamp, and an
`ASR_COMMIT` VAP event is always enqueued, so COMMITs older than the
last system utterance end are not rejected. -/
theorem C3_theorem (s : DialogueState) (t1 t2 : Int) (event text : String) :
    callback_vap s t1 event text = callback_vap s t2 event text
    ∧ (callback_vap s t1 "ASR_COMMIT" text).event_queue
        = s.event_queue ++ [Event.asrCommit] := by
  constructor
  · rfl
  · by_cases h : pyStrip text = "" <;> simp [callback_vap, h]

/-- C8: when the 10-second wait on `llm_buffer` times out (the
`queue.Empty` branch of `send_response_from_buffer`, also reached on any
LLM error) while the state is still `talking`, the dialogue manager
publishes exactly the default phrase "Sorry, I didn't quite catch that.
Could you repeat?" as an ADD on `dialogue` followed by an empty COMMIT
on `dialogue`. -/
theorem C8_theorem (s : DialogueState) (orig : String) (fid : Nat)
    (h : s.state = DMState.talking) :
    (llm_timeout_handler s orig fid).2
      = [⟨fid, "dialogue", Remdis.UpdateType.add, default_response⟩,
         ⟨fid + 1, "dialogue", Remdis.UpdateType.commit, ""⟩]
    ∧ default_response = "Sorry, I didn't quite catch that. Could you repeat?" := by
  refine ⟨?_, rfl⟩
  simp [llm_timeout_handler, h, send_default_response]

/-- C8 (witness): the theorem applied to a concrete talking-state. -/
theorem C8_theorem_witness :
    (DialogueState.mk DMState.talking [] 0 none [] [] true [] 5).state
      = DMState.talking
    ∧ (llm_timeout_handler
        (DialogueState.mk DMState.talking [] 0 none [] [] true [] 5)
        "hello" 3).2
      = [⟨3, "dialogue", Remdis.UpdateType.add, default_response⟩,
         ⟨4, "dialogue", Remdis.UpdateType.commit, ""⟩] :=
  ⟨rfl, (C8_theorem _ "hello" 3 rfl).1⟩

/-- C10: while `processing_response` is set, a further call to
`trigger_response_generation` returns without launching an LLM attempt
and without publishing anything, and the whole dialogue state — turn
state, history, output buffer — is unchanged. -/
theorem C10_theorem (s : DialogueState) (utterance : String)
    (h : s.processing_response = true) :
    trigger_response_generation s utterance = (s, [], false) := by
  simp [trigger_response_generation, h]

/-- C10 (witness): the theorem applied to a concrete state with
`processing_response` set. -/
theorem C10_theorem_witness :
    (DialogueState.mk DMState.talking [("user", "hi")] 0 (some "hi")
        [⟨1, "dialogue", Remdis.UpdateType.add, "well"⟩] [] true [] 5).processing_response
      = true
    ∧ trigger_response_generation
        (DialogueState.mk DMState.talking [("user", "hi")] 0 (some "hi")
          [⟨1, "dialogue", Remdis.UpdateType.add, "well"⟩] [] true [] 5) "more"
      = (DialogueState.mk DMState.talking [("user", "hi")] 0 (some "hi")
          [⟨1, "dialogue", Remdis.UpdateType.add, "well"⟩] [] true [] 5, [], false) :=
  ⟨rfl, C10_theorem _ "more" rfl⟩

/-- C4: whenever the silence monitor fires — the thread is in timeout
mode, `max_silence_time` has elapsed since `last_asr_timestamp`, and the
stripped accumulator is non-empty — Text-VAP publishes on `vap` first an
`ASR_COMMIT` event carrying the accumulated final text and then a
`SYSTEM_TAKE_TURN` event, in that order, and resets `accumulated_text`
to the empty string. -/
theorem C4_theorem (s : TVState) (now max_silence_time : Int)
    (h1 : s.is_timeout_mode = true)
    (h2 : now - s.last_asr_timestamp ≥ max_silence_time)
    (h3 : pyStrip s.accumulated_text ≠ "") :
    (timeout_monitor_fire s now max_silence_time).map
        (fun r => (r.2.filter (fun p => isVapPub p), r.1.accumulated_text))
      = some ([TVPub.vapEvent "ASR_COMMIT" (some (pyStrip s.accumulated_text)),
               TVPub.vapEvent "SYSTEM_TAKE_TURN" none], "") := by
  simp [timeout_monitor_fire, h1, h2, h3, reset_state_after_commit_signal,
        send_emotion_action_concept, isVapPub]

/-- C4 (witness): the theorem applied to a concrete firing state. -/
theorem C4_theorem_witness :
    (TVState.mk "hello" 0 true "normal" "wait" "" "" 1).is_timeout_mode = true
    ∧ (3 : Int) - (TVState.mk "hello" 0 true "normal" "wait" "" "" 1).last_asr_timestamp ≥ 3
    ∧ pyStrip (TVState.mk "hello" 0 true "normal" "wait" "" "" 1).accumulated_text ≠ ""
    ∧ (timeout_monitor_fire (TVState.mk "hello" 0 true "normal" "wait" "" "" 1) 3 3).map
        (fun r => (r.2.filter (fun p => isVapPub p), r.1.accumulated_text))
      = some ([TVPub.vapEvent "ASR_COMMIT"
                 (some (pyStrip (TVState.mk "hello" 0 true "normal" "wait" "" "" 1).accumulated_text)),
               TVPub.vapEvent "SYSTEM_TAKE_TURN" none], "") :=
  ⟨rfl, by decide, by decide, C4_theorem _ 3 3 rfl (by decide) (by decide)⟩

/-- C6 (counterexample): the claim that at most one silence monitor is
armed at any time — and exactly one whenever the accumulator is
non-empty — is false.  `schedule_timeout_check` starts a fresh
`timeout_monitor` thread without joining or stopping the previous one
(only the handle `active_timeout_thread` is overwritten), so after two
consecutive ADDs are processed both monitor threads are live while the
shared `is_timeout_mode` flag is set: two monitors armed at once, with
a non-empty accumulator. -/
theorem C6_counterexample :
    armedMonitors
        (schedule_timeout_check
          (schedule_timeout_check (TVState.mk "hello" 0 false "normal" "wait" "" "" 0)))
      = 2
    ∧ pyStrip
        (schedule_timeout_check
          (schedule_timeout_check (TVState.mk "hello" 0 false "normal" "wait" "" "" 0))).accumulated_text
      ≠ "" := by
  constructor
  · rfl
  · decide

/-- C6 (amended): scheduling a new silence check arms an additional
monitor without disarming the previously spawned ones — each call to
`schedule_timeout_check` increments the count of live monitor threads
and sets the shared `is_timeout_mode` flag — while
`cancel_timeout_check` clears the single shared flag and thereby
disarms every live monitor at once. -/
theorem C6_theorem (s : TVState) :
    (schedule_timeout_check s).liveMonitors = s.liveMonitors + 1
    ∧ (schedule_timeout_check s).is_timeout_mode = true
    ∧ armedMonitors (cancel_timeout_check s) = 0 := by
  refine ⟨rfl, rfl, ?_⟩
  simp [armedMonitors, cancel_timeout_check]

/-- C7 (counterexample): the claim that a `d:` score at or above
`min_text_vap_threshold` makes Text-VAP publish `SYSTEM_TAKE_TURN` on
`vap` is false.  On an LLM classification whose `d:` line carries the
value `10` (which is at least any configured threshold — the deployed
source has no such threshold at all), `parse_and_update_state` stores
the value as `current_concept`, publishes only on `emo_act`, and
publishes nothing on `vap`. -/
theorem C7_counterexample :
    (parse_and_update_state (TVState.mk "hello there" 0 true "normal" "wait" "" "" 1)
        (some "thinking") (some "nod") (some "10")).1.current_concept = "10"
    ∧ ((parse_and_update_state (TVState.mk "hello there" 0 true "normal" "wait" "" "" 1)
        (some "thinking") (some "nod") (some "10")).2.all
          (fun p => ¬ isVapPub p)) = true
    ∧ (parse_and_update_state (TVState.mk "hello there" 0 true "normal" "wait" "" "" 1)
        (some "thinking") (some "nod") (some "10")).2 ≠ [] := by
  refine ⟨by decide, by decide, by decide⟩

/-- C7 (amended): the `d:` line of the LLM classification is parsed as
a concept string (quotes stripped) stored in `current_concept` and
republished on `emo_act` when the state changed; for every possible
outcome of the three regex matches, `parse_and_update_state` publishes
nothing on the `vap` exchange — `SYSTEM_TAKE_TURN` is published only by
the frontend-COMMIT handler and the silence-timeout monitor. -/
theorem C7_theorem (s : TVState) (b c d : Option String) :
    ((parse_and_update_state s b c d).2.all (fun p => ¬ isVapPub p)) = true := by
  cases b with
  | none => simp [parse_and_update_state]
  | some bs =>
    cases c with
    | none => simp [parse_and_update_state]
    | some cs =>
      cases d with
      | none => simp [parse_and_update_state]
      | some ds =>
        simp only [parse_and_update_state]
        repeat' split
        all_goals simp [send_emotion_action_concept, isVapPub]

/-- C9 (counterexample): the claim that a REVOKE on `dialogue` makes the
TTS pipeline immediately drop both backlogs and emit a COMMIT on `tts`,
with no chunk of the revoked turn published afterwards, is false.  In
the schedule below, dialogue IU 1 ("hello") is synthesized into two
chunks; the REVOKE for that turn arrives while `send_loop` is already
past its top-of-loop check, and the next dialogue ADD (IU 2) reaches the
callback before either loop polls the flag — clearing `is_revoked`
again (tts.py line 158).  The send loop then publishes a chunk
synthesized from the revoked IU 1, no COMMIT is ever emitted, and
neither backlog was dropped. -/
theorem C9_counterexample :
    (run (fun t => if t = "hello" then ["h1", "h2"] else []) initState
        [Step.recv ⟨1, "hello", Remdis.UpdateType.add⟩,
         Step.synthCheck, Step.synthGet, Step.sendCheck,
         Step.recv ⟨1, "", Remdis.UpdateType.revoke⟩,
         Step.recv ⟨2, "next", Remdis.UpdateType.add⟩,
         Step.sendGet]).published
      = [TtsOut.chunk ⟨1, "h1", Remdis.UpdateType.add⟩]
    ∧ TtsOut.commitIU ∉
        (run (fun t => if t = "hello" then ["h1", "h2"] else []) initState
          [Step.recv ⟨1, "hello", Remdis.UpdateType.add⟩,
           Step.synthCheck, Step.synthGet, Step.sendCheck,
           Step.recv ⟨1, "", Remdis.UpdateType.revoke⟩,
           Step.recv ⟨2, "next", Remdis.UpdateType.add⟩,
           Step.sendGet]).published
    ∧ (run (fun t => if t = "hello" then ["h1", "h2"] else []) initState
        [Step.recv ⟨1, "hello", Remdis.UpdateType.add⟩,
         Step.synthCheck, Step.synthGet, Step.sendCheck,
         Step.recv ⟨1, "", Remdis.UpdateType.revoke⟩,
         Step.recv ⟨2, "next", Remdis.UpdateType.add⟩,
         Step.sendGet]).output_iu_buffer
      = [⟨1, "h2", Remdis.UpdateType.add⟩] := by
  refine ⟨by decide, by decide, by decide⟩

/-- C9 (amended): the REVOKE callback only sets `is_revoked`; the
backlogs are dropped and the `tts` COMMIT emitted at the two loops'
next top-of-loop checks, provided the flag is still set when they get
there: after the callback processes a REVOKE, a `send_loop` check
empties the output backlog and publishes a COMMIT on `tts`, and a
`synthesis_loop` check empties the input backlog.  (A non-REVOKE
dialogue message arriving first clears the flag and forfeits the flush,
as the counterexample shows.) -/
theorem C9_theorem (s : TTSState) (iu : DlgIU)
    (h1 : iu.update = Remdis.UpdateType.revoke)
    (h2 : s.sendPc = SendPc.check) (h3 : s.synthPc = SynthPc.check) :
    (tts_callback s iu).is_revoked = true
    ∧ (send_step_check (tts_callback s iu)).output_iu_buffer = []
    ∧ (send_step_check (tts_callback s iu)).published
        = s.published ++ [TtsOut.commitIU]
    ∧ (synth_step_check (send_step_check (tts_callback s iu))).input_iu_buffer
        = [] := by
  simp [tts_callback, send_step_check, synth_step_check, h1, h2, h3]

/-- C9 (witness): the theorem applied to a concrete state with pending
input and output backlogs and a REVOKE IU. -/
theorem C9_theorem_witness :
    (DlgIU.mk 3 "" Remdis.UpdateType.revoke).update = Remdis.UpdateType.revoke
    ∧ (TTSState.mk [⟨3, "x", Remdis.UpdateType.add⟩]
        [⟨3, "p", Remdis.UpdateType.add⟩] false SendPc.check SynthPc.check []).sendPc
        = SendPc.check
    ∧ (TTSState.mk [⟨3, "x", Remdis.UpdateType.add⟩]
        [⟨3, "p", Remdis.UpdateType.add⟩] false SendPc.check SynthPc.check []).synthPc
        = SynthPc.check
    ∧ (send_step_check (tts_callback
        (TTSState.mk [⟨3, "x", Remdis.UpdateType.add⟩]
          [⟨3, "p", Remdis.UpdateType.add⟩] false SendPc.check SynthPc.check [])
        ⟨3, "", Remdis.UpdateType.revoke⟩)).published
      = (TTSState.mk [⟨3, "x", Remdis.UpdateType.add⟩]
          [⟨3, "p", Remdis.UpdateType.add⟩] false SendPc.check SynthPc.check []).published
        ++ [TtsOut.commitIU] :=
  ⟨rfl, rfl, rfl,
   (C9_theorem (TTSState.mk [⟨3, "x", Remdis.UpdateType.add⟩]
      [⟨3, "p", Remdis.UpdateType.add⟩] false SendPc.check SynthPc.check [])
      ⟨3, "", Remdis.UpdateType.revoke⟩ rfl rfl rfl).2.2.1⟩

namespace Asr

/-- Token-level round trip of the diff walk: the bodies of the retained
`current_output` entries followed by the new tokens equal the new token
list followed by the bodies of the entries the walk never examined. -/
lemma diffMark_filter_append (prev : List ASRIU) (ts : List String)
    (hadd : ∀ iu ∈ prev, iu.update = Remdis.UpdateType.add) :
    (((diffMark prev ts).2.2.filter
        (fun iu => iu.update ≠ Remdis.UpdateType.revoke)).map (fun iu => iu.body))
      ++ (diffMark prev ts).2.1
    = ts ++ (diffLeftover prev ts).map (fun iu => iu.body) := by
  induction prev generalizing ts with
  | nil =>
    cases ts with
    | nil => simp [diffMark, diffLeftover]
    | cons t ts' => simp [diffMark, diffLeftover]
  | cons iu ps ih =>
    cases ts with
    | nil =>
      simp only [diffMark, diffLeftover, List.append_nil, List.nil_append]
      rw [List.filter_eq_self.mpr]
      intro a ha
      simp [hadd a ha]
    | cons t ts' =>
      have hiu : iu.update = Remdis.UpdateType.add := hadd iu (List.mem_cons_self _ _)
      have hadd' : ∀ x ∈ ps, x.update = Remdis.UpdateType.add :=
        fun x hx => hadd x (List.mem_cons_of_mem _ hx)
      by_cases h : t = iu.body
      · simp only [diffMark, diffLeftover, if_pos h]
        rw [List.filter_cons_of_pos]
        · simp only [List.map_cons, List.cons_append, h]
          rw [ih ts' hadd']
        · simp [hiu]
      · simp only [diffMark, diffLeftover, if_neg h]
        rw [List.filter_cons_of_neg]
        · exact ih (t :: ts') hadd'
        · simp

/-- Every IU the diff walk revokes comes from `current_output`: its id
is one of the walked entries' ids. -/
lemma diffMark_revoked_mem (prev : List ASRIU) (ts : List String) :
    ∀ r ∈ (diffMark prev ts).1, r.id ∈ prev.map (fun iu => iu.id) := by
  induction prev generalizing ts with
  | nil => cases ts <;> simp [diffMark]
  | cons iu ps ih =>
    cases ts with
    | nil => simp [diffMark]
    | cons t ts' =>
      by_cases h : t = iu.body
      · simp only [diffMark, if_pos h, List.map_cons]
        intro r hr
        exact List.mem_cons_of_mem _ (ih ts' r hr)
      · simp only [diffMark, if_neg h, List.map_cons]
        intro r hr
        rcases List.mem_cons.mp hr with hr1 | hr2
        · subst hr1; exact List.mem_cons_self _ _
        · exact List.mem_cons_of_mem _ (ih (t :: ts') r hr2)

/-- Under distinct ids and all-ADD entries, removing from
`current_output` the IUs whose ids were revoked is the same as the
walk's own marked filter. -/
lemma filter_not_revoked_eq (prev : List ASRIU) (ts : List String)
    (hnd : (prev.map (fun iu => iu.id)).Nodup)
    (hadd : ∀ iu ∈ prev, iu.update = Remdis.UpdateType.add) :
    prev.filter
        (fun iu => ¬ (diffMark prev ts).1.any (fun r => r.id = iu.id))
      = (diffMark prev ts).2.2.filter
          (fun iu => iu.update ≠ Remdis.UpdateType.revoke) := by
  induction prev generalizing ts with
  | nil => cases ts <;> simp [diffMark]
  | cons iu ps ih =>
    have hnd' : (ps.map (fun iu => iu.id)).Nodup := (List.nodup_cons.mp hnd).2
    have hni : iu.id ∉ ps.map (fun x => x.id) := (List.nodup_cons.mp hnd).1
    have hiu : iu.update = Remdis.UpdateType.add := hadd iu (List.mem_cons_self _ _)
    have hadd' : ∀ x ∈ ps, x.update = Remdis.UpdateType.add :=
      fun x hx => hadd x (List.mem_cons_of_mem _ hx)
    cases ts with
    | nil =>
      simp only [diffMark]
      rw [List.filter_eq_self.mpr, List.filter_eq_self.mpr]
      · intro a ha
        simp [hadd a ha]
      · intro a ha
        simp
    | cons t ts' =>
      have hpred : ∀ r ∈ (diffMark ps ts').1, ¬ r.id = iu.id := by
        intro r hr hid
        exact hni (hid ▸ diffMark_revoked_mem ps ts' r hr)
      have hpred' : ∀ r ∈ (diffMark ps (t :: ts')).1, ¬ r.id = iu.id := by
        intro r hr hid
        exact hni (hid ▸ diffMark_revoked_mem ps (t :: ts') r hr)
      by_cases h : t = iu.body
      · simp only [diffMark, if_pos h]
        rw [List.filter_cons_of_pos, List.filter_cons_of_pos]
        · rw [ih ts' hnd' hadd']
        · simp [hiu]
        · simp only [decide_not, List.any_eq_true, decide_eq_true_eq,
                     Bool.not_eq_eq_eq_not, Bool.not_true, decide_eq_false_iff_not,
                     not_exists, not_and]
          exact hpred
      · simp only [diffMark, if_neg h]
        rw [List.filter_cons_of_neg, List.filter_cons_of_neg]
        · rw [List.filter_congr, ih (t :: ts') hnd' hadd']
          intro x hx
          have hxid : ¬ ({ iu with update := Remdis.UpdateType.revoke } : ASRIU).id = x.id := by
            intro hxe
            exact hni (hxe ▸ List.mem_map_of_mem (fun y => y.id) hx)
          simp [List.any_cons, hxid]
        · simp
        · simp

/-- Diffing a token sequence against itself: every token matches, so the
walk revokes nothing, adds nothing, and leaves `current_output`
untouched. -/
lemma diffMark_self (prev : List ASRIU) :
    diffMark prev (prev.map (fun iu => iu.body)) = ([], [], prev) := by
  induction prev with
  | nil => rfl
  | cons iu ps ih => simp [diffMark, ih]

end Asr

/-- C5 (counterexample): the claim that applying the returned revokes
and adds to `prev` always reproduces the new text token-for-token is
false.  With `current_output` holding the tokens `"a" "b"` and new text
`"a"`, `get_text_increment` returns no revokes and no adds (the walk
stops once the new tokens are consumed, never examining `"b"`), so
applying them leaves `"a" "b"` — not the single token `"a"`. -/
theorem C5_counterexample :
    applyRevokesThenAdds
        [ASRIU.mk 0 "a" Remdis.UpdateType.add, ASRIU.mk 1 "b" Remdis.UpdateType.add]
        (get_text_increment
          [ASRIU.mk 0 "a" Remdis.UpdateType.add, ASRIU.mk 1 "b" Remdis.UpdateType.add]
          "a").1
        (get_text_increment
          [ASRIU.mk 0 "a" Remdis.UpdateType.add, ASRIU.mk 1 "b" Remdis.UpdateType.add]
          "a").2.1
      ≠ pySplitSpace (pyStrip "a") := by
  decide

/-- C5 (amended): applying the revokes and then the adds returned by
`get_text_increment` to `prev` yields the token sequence of the new
text followed by the bodies of the `current_output` suffix the diff walk
never examined (which is empty whenever the walk consumes all of
`current_output`, e.g. whenever any adds are returned); and diffing a
token sequence against itself yields no revokes and no adds.  The
hypotheses state the caller's invariants: ids in `current_output` are
distinct (`createIU` assigns unique ids) and all entries are ADDs (only
un-revoked ADD IUs are ever appended to `current_output`); the token
split of the new text being `[""]` is the early-return case. -/
theorem C5_theorem (prev : List ASRIU) (new_text : String)
    (hnd : (prev.map (fun iu => iu.id)).Nodup)
    (hadd : ∀ iu ∈ prev, iu.update = Remdis.UpdateType.add)
    (hne : pySplitSpace (pyStrip new_text) ≠ [""]) :
    applyRevokesThenAdds prev (get_text_increment prev new_text).1
        (get_text_increment prev new_text).2.1
      = pySplitSpace (pyStrip new_text)
        ++ (diffLeftover prev (pySplitSpace (pyStrip new_text))).map
            (fun iu => iu.body)
    ∧ diffMark prev (prev.map (fun iu => iu.body)) = ([], [], prev) := by
  refine ⟨?_, diffMark_self prev⟩
  have hg : get_text_increment prev new_text
      = ((diffMark prev (pySplitSpace (pyStrip new_text))).1,
         (diffMark prev (pySplitSpace (pyStrip new_text))).2.1,
         (diffMark prev (pySplitSpace (pyStrip new_text))).2.2.filter
           (fun iu => iu.update ≠ Remdis.UpdateType.revoke)) := by
    simp [get_text_increment, hne]
  rw [hg, applyRevokesThenAdds,
      filter_not_revoked_eq prev (pySplitSpace (pyStrip new_text)) hnd hadd,
      diffMark_filter_append prev (pySplitSpace (pyStrip new_text)) hadd]

/-- C5 (witness): the theorem applied to a concrete `current_output`
and a new recognition text that extends it. -/
theorem C5_theorem_witness :
    (([ASRIU.mk 0 "hello" Remdis.UpdateType.add]).map (fun iu => iu.id)).Nodup
    ∧ (∀ iu ∈ [ASRIU.mk 0 "hello" Remdis.UpdateType.add],
        iu.update = Remdis.UpdateType.add)
    ∧ pySplitSpace (pyStrip "hello world") ≠ [""]
    ∧ (applyRevokesThenAdds [ASRIU.mk 0 "hello" Remdis.UpdateType.add]
        (get_text_increment [ASRIU.mk 0 "hello" Remdis.UpdateType.add]
          "hello world").1
        (get_text_increment [ASRIU.mk 0 "hello" Remdis.UpdateType.add]
          "hello world").2.1
      = pySplitSpace (pyStrip "hello world")
        ++ (diffLeftover [ASRIU.mk 0 "hello" Remdis.UpdateType.add]
            (pySplitSpace (pyStrip "hello world"))).map (fun iu => iu.body)
      ∧ diffMark [ASRIU.mk 0 "hello" Remdis.UpdateType.add]
          ([ASRIU.mk 0 "hello" Remdis.UpdateType.add].map (fun iu => iu.body))
        = ([], [], [ASRIU.mk 0 "hello" Remdis.UpdateType.add])) :=
  ⟨by decide, by decide, by decide,
   C5_theorem [ASRIU.mk 0 "hello" Remdis.UpdateType.add] "hello world"
     (by decide) (by decide) (by decide)⟩
